import Mathlib

/-!
Shallow embedding of the DEADLINE search-and-synthesize pipeline
(route handler: searchGoogleAndScrape / extractArticleContent /
processArticlesWithGroq / saveEventDetails / processEvent).

JavaScript strings are modelled as Lean `String`; machine behaviour that
matters (string truthiness, `Array.prototype.findIndex`, `String.prototype
.includes`, first-occurrence `String.prototype.replace` with a string
pattern) is modelled explicitly.  All recursive string scanners use a
fuel argument (fuel = input length + 1 always suffices) so that every
definition is structurally recursive and kernel-evaluable.
-/

set_option maxRecDepth 100000

namespace Deadline

/-- JS truthiness of an optional string environment variable / object field:
`undefined` and the empty string are falsy. -/
def jsTruthy : Option String → Bool
  | none => false
  | some s => s ≠ ""

/-- JS `a || d` for an optional / possibly-empty string `a`: the default `d`
is used when `a` is `undefined` or `''`. -/
def jsOrDefault : Option String → String → String
  | none, d => d
  | some s, d => if s = "" then d else s

/-- Does `pat` occur as a contiguous sublist of the second argument? -/
def listContains (pat : List Char) : List Char → Bool
  | [] => pat.isPrefixOf []
  | l@(_ :: rest) => pat.isPrefixOf l || listContains pat rest

/-- JS `String.prototype.includes`, via list infix testing. -/
def strIncludes (s sub : String) : Bool :=
  listContains sub.toList s.toList

/-- JS `String.prototype.toLowerCase` (ASCII range, which is all the code
compares: domain names and HTML tag names). -/
def lowerStr (s : String) : String :=
  ⟨s.toList.map Char.toLower⟩

/-- One organic web-search hit, after normalization (`webData.items?.map`):
all four fields are plain strings (`displayLink` defaults to `''`). -/
structure GoogleSearchResult where
  title : String
  link : String
  snippet : String
  displayLink : String
deriving Repr, DecidableEq

/-- A raw search-API item before normalization: every field may be absent
(`undefined`) or empty. -/
structure RawItem where
  title : Option String
  link : Option String
  snippet : Option String
  displayLink : Option String
deriving Repr, DecidableEq

/-- Normalization of one raw item (`item.title || 'No title'`, etc.). -/
def normalizeItem (item : RawItem) : GoogleSearchResult :=
  { title := jsOrDefault item.title "No title"
    link := jsOrDefault item.link ""
    snippet := jsOrDefault item.snippet "No snippet available"
    displayLink := jsOrDefault item.displayLink "" }

/-- Outcome of one paginated search request.  Non-2xx status, an HTML error
page, malformed JSON and an API-reported error are all caught and skipped
(`continue`), contributing no results; a 2xx JSON page contributes its
(possibly empty) `items` array. -/
inductive PageOutcome where
  | failure
  | success (items : List RawItem)
deriving Repr, DecidableEq

/-- The results one page contributes to `allResults`. -/
def pageResults : PageOutcome → List GoogleSearchResult
  | .failure => []
  | .success items => items.map normalizeItem

/-- `allResults`: concatenation of the per-page normalized results. -/
def allResults (pages : List PageOutcome) : List GoogleSearchResult :=
  (pages.map pageResults).flatten

/-- The fixed social-media blocklist. -/
def blockDomains : List String :=
  ["tiktok.com", "pinterest.com", "facebook.com", "twitter.com",
   "instagram.com", "youtube.com"]

/-- The blocklist test applied to one result: some blocked domain occurs in
the lowercased display domain or in the lowercased link. -/
def isBlockedResult (r : GoogleSearchResult) : Bool :=
  blockDomains.any fun blocked =>
    strIncludes (lowerStr r.displayLink) blocked || strIncludes (lowerStr r.link) blocked

/-- The filter applied to the concatenated results (`allResults.filter`):
drop an element whose index differs from the first index carrying the same
`link` (JS `findIndex` duplicate test), drop blocked domains, and require a
truthy (non-empty) title and snippet. -/
def keepResult (all : List GoogleSearchResult) (i : Nat) (r : GoogleSearchResult) : Bool :=
  i == all.findIdx (fun x => x.link == r.link) &&
  !isBlockedResult r && r.title != "" && r.snippet != ""

/-- `filteredResults`: the JS `Array.prototype.filter` with the
`(result, index, self)` callback, via `enum`. -/
def filteredResults (all : List GoogleSearchResult) : List GoogleSearchResult :=
  (all.enum.filter fun p => keepResult all p.1 p.2).map Prod.snd

/-- The same filter with the non-empty-title-and-snippet conjunct dropped;
used only to state that this conjunct never excludes a normalized result. -/
def filteredResultsNoTitleSnippet (all : List GoogleSearchResult) : List GoogleSearchResult :=
  (all.enum.filter fun p =>
    p.1 == all.findIdx (fun x => x.link == p.2.link) && !isBlockedResult p.2).map Prod.snd

/-- The Reddit test (`displayLink` or `link` contains `reddit.com`). -/
def isRedditResult (r : GoogleSearchResult) : Bool :=
  strIncludes (lowerStr r.displayLink) "reddit.com" ||
  strIncludes (lowerStr r.link) "reddit.com"

/-- `redditResults`: the Reddit hits among the filtered results, capped at 2. -/
def redditResults (fr : List GoogleSearchResult) : List GoogleSearchResult :=
  (fr.filter isRedditResult).take 2

/-- `nonRedditResults`: the non-Reddit hits among the filtered results. -/
def nonRedditResults (fr : List GoogleSearchResult) : List GoogleSearchResult :=
  fr.filter fun r => !isRedditResult r

/-- `articlesToScrape`: first 16 non-Reddit hits, then up to 2 Reddit hits,
capped at 18. -/
def articlesToScrape (fr : List GoogleSearchResult) : List GoogleSearchResult :=
  (nonRedditResults fr |>.take 16 |>.append (redditResults fr)).take 18

/-- A truthy-default never yields the empty string when the default is
non-empty. -/
theorem jsOrDefault_ne_empty (o : Option String) (d : String) (hd : d ≠ "") :
    jsOrDefault o d ≠ "" := by
  cases o with
  | none => simpa [jsOrDefault] using hd
  | some s =>
    simp only [jsOrDefault]
    split
    · exact hd
    · assumption

/-- The enumeration of a list is strictly increasing in its indices. -/
theorem enum_pairwise_fst_lt {α : Type} (l : List α) :
    l.enum.Pairwise (fun p q => p.1 < q.1) := by
  rw [List.enum_eq_zip_range]
  have h := List.pairwise_lt_range l.length
  rw [← List.map_fst_zip (List.range l.length) l (by simp)] at h
  exact List.pairwise_map.mp h

/-- Unfolding of a passed `keepResult` test into its three conjuncts. -/
theorem keepResult_eq_true {all : List GoogleSearchResult} {i : Nat}
    {r : GoogleSearchResult} (h : keepResult all i r = true) :
    i = all.findIdx (fun x => x.link == r.link) ∧ isBlockedResult r = false ∧
      r.title ≠ "" ∧ r.snippet ≠ "" := by
  simp only [keepResult, Bool.and_eq_true, beq_iff_eq, Bool.not_eq_true',
    bne_iff_ne, ne_eq] at h
  exact ⟨h.1.1.1, h.1.1.2, h.1.2, h.2⟩

/-- Membership in `filteredResults` comes from an enumerated pair passing
`keepResult`. -/
theorem mem_filteredResults {all : List GoogleSearchResult}
    {r : GoogleSearchResult} (h : r ∈ filteredResults all) :
    ∃ i, all[i]? = some r ∧ keepResult all i r = true := by
  simp only [filteredResults, List.mem_map, List.mem_filter] at h
  obtain ⟨⟨i, s⟩, ⟨hmem, hkeep⟩, hsnd⟩ := h
  subst hsnd
  exact ⟨i, List.mk_mem_enum_iff_getElem?.mp hmem, hkeep⟩

/-- C5 — the Web Search Client's post-filter output never contains two
results with the same link (and the survivor of each link is the first
occurrence of that link in the concatenated page results), and never
contains a result whose link or display domain hits the blocklist. -/
theorem filteredResults_dedup_and_blocklist (all : List GoogleSearchResult) :
    (filteredResults all).Pairwise (fun a b => a.link ≠ b.link) ∧
    (∀ r ∈ filteredResults all, isBlockedResult r = false) ∧
    (∀ r ∈ filteredResults all,
      all[all.findIdx (fun x => x.link == r.link)]? = some r) := by
  refine ⟨?_, ?_, ?_⟩
  · have henum := enum_pairwise_fst_lt all
    have hfilt := henum.filter (fun p => keepResult all p.1 p.2)
    have hne : ((all.enum.filter fun p => keepResult all p.1 p.2).Pairwise
        (fun p q => p.2.link ≠ q.2.link)) := by
      refine hfilt.imp_of_mem ?_
      intro p q hp hq hlt hlink
      have hkp := (List.mem_filter.mp hp).2
      have hkq := (List.mem_filter.mp hq).2
      have h1 := (keepResult_eq_true hkp).1
      have h2 := (keepResult_eq_true hkq).1
      rw [hlink] at h1
      omega
    exact List.pairwise_map.mpr hne
  · intro r hr
    obtain ⟨i, _, hkeep⟩ := mem_filteredResults hr
    exact (keepResult_eq_true hkeep).2.1
  · intro r hr
    obtain ⟨i, hget, hkeep⟩ := mem_filteredResults hr
    rw [← (keepResult_eq_true hkeep).1]
    exact hget

/-- A clean single-result input on which the C5 properties are instantiated. -/
def w5r : GoogleSearchResult :=
  { title := "t", link := "https://a.example/x", snippet := "s", displayLink := "a.example" }

/-- Concrete instantiation of the C5 theorem. -/
theorem filteredResults_dedup_and_blocklist_witness :
    isBlockedResult w5r = false ∧
      ([w5r])[(List.findIdx (fun x => x.link == w5r.link) [w5r])]? = some w5r := by
  have h := filteredResults_dedup_and_blocklist [w5r]
  have hm : w5r ∈ filteredResults [w5r] := by decide
  exact ⟨h.2.1 w5r hm, h.2.2 w5r hm⟩

/-- C4 — the selected-for-scraping list keeps at most 2 Reddit results, at
most 18 results in total, and is exactly the first 16 non-Reddit filtered
results followed by the (at most 2) Reddit results. -/
theorem articlesToScrape_cap (fr : List GoogleSearchResult) :
    (articlesToScrape fr).countP isRedditResult ≤ 2 ∧
    (articlesToScrape fr).length ≤ 18 ∧
    articlesToScrape fr = (nonRedditResults fr).take 16 ++ redditResults fr := by
  have h16 : ((nonRedditResults fr).take 16).length ≤ 16 := List.length_take_le 16 _
  have h2 : (redditResults fr).length ≤ 2 := List.length_take_le 2 _
  have hlen : ((nonRedditResults fr).take 16 ++ redditResults fr).length ≤ 18 := by
    rw [List.length_append]; omega
  have heq : articlesToScrape fr = (nonRedditResults fr).take 16 ++ redditResults fr := by
    unfold articlesToScrape
    exact List.take_of_length_le hlen
  refine ⟨?_, by rw [heq]; exact hlen, heq⟩
  rw [heq, List.countP_append]
  have hz : ((nonRedditResults fr).take 16).countP isRedditResult = 0 := by
    rw [List.countP_eq_zero]
    intro a ha
    have hmem := List.mem_of_mem_take ha
    have := (List.mem_filter.mp hmem).2
    simp only [Bool.not_eq_true'] at this
    simp [this]
  have hc : (redditResults fr).countP isRedditResult ≤ 2 :=
    le_trans (List.countP_le_length isRedditResult) h2
  omega

/-- C10 — normalization substitutes placeholder strings for a missing title
or snippet, so every concatenated result has a non-empty title and snippet,
and the non-empty-title-and-snippet conjunct of the filter excludes
nothing. -/
theorem normalized_title_snippet_nonempty (pages : List PageOutcome) :
    (∀ r ∈ allResults pages, r.title ≠ "" ∧ r.snippet ≠ "") ∧
    filteredResults (allResults pages) =
      filteredResultsNoTitleSnippet (allResults pages) := by
  have hmem : ∀ r ∈ allResults pages, r.title ≠ "" ∧ r.snippet ≠ "" := by
    intro r hr
    simp only [allResults, List.mem_flatten, List.mem_map] at hr
    obtain ⟨l, ⟨po, _, hl⟩, hrl⟩ := hr
    subst hl
    cases po with
    | failure => simp [pageResults] at hrl
    | success items =>
      simp only [pageResults, List.mem_map] at hrl
      obtain ⟨item, _, hitem⟩ := hrl
      subst hitem
      exact ⟨jsOrDefault_ne_empty _ _ (by decide),
             jsOrDefault_ne_empty _ _ (by decide)⟩
  refine ⟨hmem, ?_⟩
  unfold filteredResults filteredResultsNoTitleSnippet
  refine congrArg (List.map Prod.snd) (List.filter_congr ?_)
  intro p hp
  have hin : p.2 ∈ allResults pages :=
    List.getElem?_mem (List.mk_mem_enum_iff_getElem?.mp (by exact hp))
  obtain ⟨ht, hs⟩ := hmem p.2 hin
  have ht' : (p.2.title != "") = true := bne_iff_ne.mpr ht
  have hs' : (p.2.snippet != "") = true := bne_iff_ne.mpr hs
  simp only [keepResult, ht', hs', Bool.and_true]

/-- A raw item with absent title and snippet, used to instantiate C10. -/
def w10item : RawItem :=
  { title := none, link := some "https://b.example/y", snippet := none, displayLink := none }

/-- Concrete instantiation of the C10 theorem. -/
theorem normalized_title_snippet_nonempty_witness :
    (normalizeItem w10item).title ≠ "" ∧ (normalizeItem w10item).snippet ≠ "" ∧
    filteredResults (allResults [PageOutcome.success [w10item]]) =
      filteredResultsNoTitleSnippet (allResults [PageOutcome.success [w10item]]) := by
  have h := normalized_title_snippet_nonempty [PageOutcome.success [w10item]]
  have hm : normalizeItem w10item ∈ allResults [PageOutcome.success [w10item]] := by
    decide
  exact ⟨(h.1 _ hm).1, (h.1 _ hm).2, h.2⟩

/-! ## Content Extractor (`extractArticleContent`)

String scanners below implement the concrete regex operations of the
extractor on `List Char`, with a fuel argument (`length + 1` always
suffices, and callers pass exactly that) so every function is structural
and kernel-evaluable. -/

/-- Case-insensitive character comparison (regex `i` flag). -/
def lowerEq (a b : Char) : Bool := a.toLower == b.toLower

/-- Case-insensitive prefix test. -/
def ciIsPrefixOf : List Char → List Char → Bool
  | [], _ => true
  | _ :: _, [] => false
  | a :: as, b :: bs => lowerEq a b && ciIsPrefixOf as bs

/-- JS `\s` for the characters the pipeline meets (ASCII whitespace:
space, tab, LF, VT, FF, CR). -/
def isJsWs (c : Char) : Bool :=
  c == ' ' || c == '\t' || c == '\n' || c == '\r' || c.toNat == 11 || c.toNat == 12

/-- JS `String.prototype.trim`. -/
def jsTrim (s : String) : String :=
  ⟨(((s.toList.dropWhile isJsWs).reverse).dropWhile isJsWs).reverse⟩

/-- JS `String.prototype.substring(0, n)`. -/
def strTake (s : String) (n : Nat) : String := ⟨s.toList.take n⟩

/-- JS `Array.prototype.join(sep)`. -/
def jsJoin (sep : String) : List String → String
  | [] => ""
  | x :: rest => rest.foldl (fun acc y => acc ++ sep ++ y) x

/-- One step of `replace(/<[^>]*>/g, ' ')`: a `<`, any non-`>` run and a
closing `>` collapse to one space; an unclosed `<` is left alone. -/
def stripTagsAux : Nat → List Char → List Char
  | 0, l => l
  | _ + 1, [] => []
  | fuel + 1, '<' :: rest =>
    match rest.dropWhile (fun c => !(c == '>')) with
    | _ :: after => ' ' :: stripTagsAux fuel after
    | [] => '<' :: stripTagsAux fuel rest
  | fuel + 1, c :: rest => c :: stripTagsAux fuel rest

/-- `replace(/<[^>]*>/g, ' ')`. -/
def stripTagsStr (s : String) : String := ⟨stripTagsAux (s.length + 1) s.toList⟩

/-- `replace(/\s+/g, ' ')`: each maximal whitespace run becomes one space. -/
def collapseWsAux : Nat → List Char → List Char
  | 0, l => l
  | _ + 1, [] => []
  | fuel + 1, c :: rest =>
    if isJsWs c then ' ' :: collapseWsAux fuel (rest.dropWhile isJsWs)
    else c :: collapseWsAux fuel rest

/-- `replace(/\s+/g, ' ')`. -/
def collapseWsStr (s : String) : String := ⟨collapseWsAux (s.length + 1) s.toList⟩

/-- Global replacement of a fixed non-empty pattern (JS
`replace(/pat/g, repl)` for a literal pattern): left-to-right,
non-overlapping, scanning resumes after each replacement. -/
def replaceAllAux (pat repl : List Char) : Nat → List Char → List Char
  | 0, l => l
  | _ + 1, [] => []
  | fuel + 1, l@(c :: rest) =>
    if pat.isPrefixOf l then repl ++ replaceAllAux pat repl fuel (l.drop pat.length)
    else c :: replaceAllAux pat repl fuel rest

/-- Global fixed-string replacement on strings. -/
def replaceAllStr (s pat repl : String) : String :=
  ⟨replaceAllAux pat.toList repl.toList (s.length + 1) s.toList⟩

/-- JS `String.prototype.replace` with a plain string pattern: only the
first occurrence is replaced. -/
def replaceFirstAux (pat repl : List Char) : Nat → List Char → List Char
  | 0, l => l
  | _ + 1, [] => []
  | fuel + 1, l@(c :: rest) =>
    if pat.isPrefixOf l then repl ++ l.drop pat.length
    else c :: replaceFirstAux pat repl fuel rest

/-- First-occurrence fixed-string replacement on strings (used for the
`hostname.replace('www.', '')` step). -/
def replaceFirstStr (s pat repl : String) : String :=
  ⟨replaceFirstAux pat.toList repl.toList (s.length + 1) s.toList⟩

/-- Try the title regex `<title[^>]*>([^<]+)<\/title>` (case-insensitive)
anchored at the head of `l`; returns the capture group on success. -/
def titleAt (l : List Char) : Option (List Char) :=
  if ciIsPrefixOf ("<title".toList) l then
    let r1 := l.drop 6
    match r1.dropWhile (fun c => !(c == '>')) with
    | '>' :: r3 =>
      let cap := r3.takeWhile (fun c => !(c == '<'))
      if cap.isEmpty then none
      else if ciIsPrefixOf ("</title>".toList) (r3.drop cap.length) then some cap
      else none
    | _ => none
  else none

/-- Scan for the first position where the title regex matches. -/
def matchTitleAux : Nat → List Char → Option (List Char)
  | 0, _ => none
  | _ + 1, [] => none
  | fuel + 1, l@(_ :: rest) =>
    match titleAt l with
    | some cap => some cap
    | none => matchTitleAux fuel rest

/-- `cleanHtml.match(/<title[^>]*>([^<]+)<\/title>/i)`: the first capture
of the first match, if any. -/
def matchTitle (s : String) : Option String :=
  (matchTitleAux (s.length + 1) s.toList).map fun l => ⟨l⟩

/-- JS `\w` (ASCII word character), for the `\b` boundary after a tag name. -/
def isWordChar (c : Char) : Bool := c.isAlphanum || c == '_'

/-- Find the first case-insensitive occurrence of `pat` (non-empty) and
return the suffix after it. -/
def findCiAux : Nat → List Char → List Char → Option (List Char)
  | 0, _, _ => none
  | _ + 1, _, [] => none
  | fuel + 1, pat, l@(_ :: rest) =>
    if ciIsPrefixOf pat l then some (l.drop pat.length)
    else findCiAux fuel pat rest

/-- One pass of `replace(/<tag\b...<\/tag>/gi, '')`: from a `<tag`
occurrence (with a non-word character after the tag name) everything
through the first subsequent `</tag>` is removed; a `<tag` with no closing
tag is left in place and scanning continues one character later. -/
def removeBlocksAux (openTag closeTag : List Char) : Nat → List Char → List Char
  | 0, l => l
  | _ + 1, [] => []
  | fuel + 1, l@(c :: rest) =>
    if ciIsPrefixOf openTag l &&
        (match l.drop openTag.length with
         | [] => true
         | d :: _ => !isWordChar d) then
      match findCiAux l.length closeTag (l.drop openTag.length) with
      | some after => removeBlocksAux openTag closeTag fuel after
      | none => c :: removeBlocksAux openTag closeTag fuel rest
    else c :: removeBlocksAux openTag closeTag fuel rest

/-- Remove every `<tag ...>...</tag>` block for one tag name. -/
def removeBlocks (tag : String) (s : String) : String :=
  ⟨removeBlocksAux ("<" ++ tag).toList ("</" ++ tag ++ ">").toList (s.length + 1) s.toList⟩

/-- The extractor's cleaning prelude: strip `<script>`, `<style>`, `<nav>`,
`<header>` and `<footer>` blocks, in the source's order. -/
def cleanHtmlOf (html : String) : String :=
  removeBlocks "footer" (removeBlocks "header" (removeBlocks "nav"
    (removeBlocks "style" (removeBlocks "script" html))))

/-- `new URL(url).hostname`, modelled for absolute `http`/`https` URLs:
the authority up to the first `/`, `?` or `#`, with any `:port` stripped
and lowercased.  Any other string (in particular the empty string and
relative URLs) makes the `URL` constructor throw, modelled as `none`. -/
def parseHostname (url : String) : Option String :=
  let l := url.toList
  let ll := l.map Char.toLower
  let rest? : Option (List Char) :=
    if ("https://".toList).isPrefixOf ll then some (l.drop 8)
    else if ("http://".toList).isPrefixOf ll then some (l.drop 7)
    else none
  match rest? with
  | none => none
  | some rest =>
    let hostPort := rest.takeWhile fun c => !(c == '/' || c == '?' || c == '#')
    let host := hostPort.takeWhile fun c => !(c == ':')
    if host.isEmpty then none else some ⟨host.map Char.toLower⟩

/-- The extractor's output record (`publishDate` and `author` are always
set to the empty string by the extractor). -/
structure ScrapedArticle where
  url : String
  title : String
  content : String
  publishDate : String
  author : String
  source : String
deriving Repr, DecidableEq

/-- The outcomes of the three content-matching regexes and the
meta-description regex on the cleaned HTML, abstracted as functions
(`String.match` returns `null` — `none` — or the list of full matches;
the meta regex yields its first capture group).  The extractor's control
flow is verified for every possible outcome of these matchers, which is
what the fallback-chain claims quantify over. -/
structure HtmlMatchers where
  articleMatches : String → Option (List String)
  paragraphMatches : String → Option (List String)
  divMatches : String → Option (List String)
  metaDescription : String → Option String

/-- JS `reduce((a, b) => a.length > b.length ? a : b)` on a non-empty
match list (the `[]` case is unreachable behind the `length > 0` guard). -/
def jsReduceLongest : List String → String
  | [] => ""
  | a :: rest => rest.foldl (fun x y => if y.length < x.length then x else y) a

/-- Tier A post-processing: strip tags, collapse whitespace, decode the
five named entities, trim — in the source's order. -/
def processTierA (s : String) : String :=
  jsTrim (replaceAllStr (replaceAllStr (replaceAllStr (replaceAllStr
    (replaceAllStr (collapseWsStr (stripTagsStr s)) "&nbsp;" " ")
    "&amp;" "&") "&lt;" "<") "&gt;" ">") "&quot;" "\"")

/-- Tier B/C post-processing: per-match strip tags and trim, keep texts
longer than 50 characters, join with spaces, collapse whitespace, trim. -/
def processTierText (ps : List String) : String :=
  jsTrim (collapseWsStr (jsJoin " "
    ((ps.map fun p => jsTrim (stripTagsStr p)).filter fun p => 50 < p.length)))

/-- `extractArticleContent(html, url)`: title and meta-description
extraction, the three-tier content fallback chain with its 300/200/100
thresholds, truncation to 5000 characters, and the hostname-derived
`source`.  `new URL(url)` throwing (invalid `url`) is the `none` case —
inside `scrapeArticle` that exception is caught and becomes `null`. -/
def extractArticleContent (m : HtmlMatchers) (html url : String) : Option ScrapedArticle :=
  let cleanHtml := cleanHtmlOf html
  let title := match matchTitle cleanHtml with
    | some t => jsTrim t
    | none => ""
  let metaContent := match m.metaDescription cleanHtml with
    | some c => c
    | none => ""
  let content0 := match m.articleMatches cleanHtml with
    | some ms => if 0 < ms.length then processTierA (jsReduceLongest ms) else ""
    | none => ""
  let content1 :=
    if content0 = "" ∨ content0.length < 300 then
      match m.paragraphMatches cleanHtml with
      | some ps => if 0 < ps.length then processTierText ps else content0
      | none => content0
    else content0
  let content2 :=
    if content1 = "" ∨ content1.length < 200 then
      match m.divMatches cleanHtml with
      | some ds =>
        let textContent := processTierText ds
        if content1.length < textContent.length then textContent else content1
      | none => content1
    else content1
  let content3 := if content2 = "" ∨ content2.length < 100 then metaContent else content2
  match parseHostname url with
  | none => none
  | some host =>
    some { url := url, title := title, content := strTake content3 5000,
           publishDate := "", author := "", source := replaceFirstStr host "www." "" }

/-- Matchers that all report "no match"; used for concrete instantiations
(an input with none of the matched markup). -/
def noMatchers : HtmlMatchers :=
  { articleMatches := fun _ => none, paragraphMatches := fun _ => none,
    divMatches := fun _ => none, metaDescription := fun _ => none }

/-- A `strTake` result never exceeds the requested length. -/
theorem strTake_length_le (s : String) (n : Nat) : (strTake s n).length ≤ n := by
  have : (strTake s n).length = (s.toList.take n).length := rfl
  rw [this, List.length_take]
  exact min_le_left n _

/-- An HTML document containing an `og:title` meta tag (value `OG Title`)
that differs from its `<title>` element (value `Doc Title`). -/
def c2Html : String :=
  "<html><head><meta property=\"og:title\" content=\"OG Title\"/><title>Doc Title</title></head><body></body></html>"

/-- C2 counterexample — on HTML whose `og:title` (`OG Title`) differs from
its `<title>` element (`Doc Title`), the extractor returns the `<title>`
value, not the `og:title` value: the claimed og:title-first priority does
not hold. -/
theorem extract_title_ignores_ogtitle :
    extractArticleContent noMatchers c2Html "https://n.example/a" =
      some { url := "https://n.example/a", title := "Doc Title", content := "",
             publishDate := "", author := "", source := "n.example" } ∧
    strIncludes c2Html "og:title" = true ∧ ("Doc Title" : String) ≠ "OG Title" := by
  exact ⟨by decide, by decide, by decide⟩

/-- C2 (amended) — the extracted title is derived solely from the first
`<title>` element of the cleaned HTML (its text, trimmed; empty when there
is none); `og:title`, `twitter:title`, `<h1>` and `meta[name=title]` are
never consulted (the title is independent of every content matcher). -/
theorem extract_title_from_title_element (m : HtmlMatchers) (html url : String)
    (a : ScrapedArticle) (h : extractArticleContent m html url = some a) :
    a.title = match matchTitle (cleanHtmlOf html) with
      | some t => jsTrim t
      | none => "" := by
  simp only [extractArticleContent] at h
  cases hu : parseHostname url with
  | none => rw [hu] at h; simp at h
  | some host =>
    rw [hu] at h
    simp only [Option.some.injEq] at h
    rw [← h]

/-- Concrete instantiation of the amended C2 theorem. -/
theorem extract_title_from_title_element_witness :
    (({ url := "https://n.example/a", title := "Doc Title", content := "",
        publishDate := "", author := "", source := "n.example" } : ScrapedArticle)).title =
      match matchTitle (cleanHtmlOf c2Html) with
      | some t => jsTrim t
      | none => "" := by
  exact extract_title_from_title_element noMatchers c2Html "https://n.example/a" _
    (by decide)

/-- C8 — on HTML with no `<article>`, `<main>` or content-class `<div>`
markup (Tier A matches nothing) and a parseable URL, the extractor returns
an article without throwing, and its content is obtained from the
paragraph tier, then the content-class div tier, then the meta
description, truncated to 5000 characters. -/
theorem extract_fallback_chain (m : HtmlMatchers) (html url host : String)
    (hart : m.articleMatches (cleanHtmlOf html) = none)
    (hurl : parseHostname url = some host) :
    ∃ a : ScrapedArticle, extractArticleContent m html url = some a ∧
      a.url = url ∧ a.content.length ≤ 5000 ∧
      a.content = strTake
        (let clean := cleanHtmlOf html
         let pText := match m.paragraphMatches clean with
           | some ps => if 0 < ps.length then processTierText ps else ""
           | none => ""
         let cText := if pText = "" ∨ pText.length < 200 then
             match m.divMatches clean with
             | some ds =>
               let dText := processTierText ds
               if pText.length < dText.length then dText else pText
             | none => pText
           else pText
         if cText = "" ∨ cText.length < 100 then
           (match m.metaDescription clean with | some c => c | none => "")
         else cText) 5000 := by
  simp only [extractArticleContent, hart, hurl]
  refine ⟨_, rfl, rfl, strTake_length_le _ _, ?_⟩
  simp

/-- Concrete instantiation of the C8 theorem. -/
theorem extract_fallback_chain_witness :
    ∃ a : ScrapedArticle,
      extractArticleContent noMatchers "<p>hi</p>" "https://w.example/a" = some a ∧
      a.url = "https://w.example/a" ∧ a.content.length ≤ 5000 ∧ a.content = "" := by
  obtain ⟨a, h1, h2, h3, h4⟩ :=
    extract_fallback_chain noMatchers "<p>hi</p>" "https://w.example/a" "w.example"
      rfl rfl
  refine ⟨a, h1, h2, h3, ?_⟩
  rw [h4]
  decide

/-! ## Article Fetcher and Scrape Orchestrator (`scrapeArticle`,
`searchGoogleAndScrape`) -/

/-- `scrapeArticle(url)`.  The `fetch` environment maps a URL to an
optional body: `none` models every caught failure (network error, abort
timeout, non-2xx status).  An absent or sub-100-character body yields
`null`; otherwise the Content Extractor runs, its own exception (invalid
URL in the `URL` constructor) also being caught into `null`. -/
def scrapeArticle (m : HtmlMatchers) (fetch : String → Option String)
    (url : String) : Option ScrapedArticle :=
  match fetch url with
  | none => none
  | some html =>
    if html = "" ∨ html.length < 100 then none
    else extractArticleContent m html url

/-- The orchestrator's output bundle. -/
structure ScrapedData where
  results : List GoogleSearchResult
  articles : List ScrapedArticle
  images : List String
deriving Repr, DecidableEq

/-- `searchGoogleAndScrape(query)`.  Credentials are the two optional
environment variables; the three paginated requests are the `pages`
outcomes (each page's failure is caught and skipped inside the loop);
article fetching settles all promises and keeps non-null results whose
content exceeds 100 characters; `searchImages` never throws and is
abstracted by its returned list.  The function throws only on the
credential check — every per-page error is consumed by the loop. -/
def searchGoogleAndScrape (apiKey searchEngineId : Option String)
    (pages : List PageOutcome) (m : HtmlMatchers)
    (fetch : String → Option String) (images : List String) :
    Except String ScrapedData :=
  if !(jsTruthy apiKey && jsTruthy searchEngineId) then
    .error "Google API credentials not configured"
  else
    let all := allResults pages
    let fr := filteredResults all
    let sel := articlesToScrape fr
    let successfulArticles :=
      (sel.filterMap fun result => scrapeArticle m fetch result.link).filter
        fun article => 100 < article.content.length
    .ok { results := fr, articles := successfulArticles, images := images }

/-- C3 counterexample — with credentials present and every one of the
three page requests failing, `searchGoogleAndScrape` does not throw: it
returns an empty `ScrapedData` bundle. -/
theorem searchGoogleAndScrape_all_pages_fail_no_throw :
    searchGoogleAndScrape (some "key") (some "cx")
      [PageOutcome.failure, PageOutcome.failure, PageOutcome.failure]
      noMatchers (fun _ => none) [] =
      Except.ok { results := [], articles := [], images := [] } := by
  rfl

/-- C3 (amended) — the Web Search Client throws exactly when the search
API credentials are absent; when every page request fails but credentials
are present it returns successfully with empty results and articles. -/
theorem searchGoogleAndScrape_throw_iff (apiKey searchEngineId : Option String)
    (pages : List PageOutcome) (m : HtmlMatchers)
    (fetch : String → Option String) (images : List String) :
    ((∃ e, searchGoogleAndScrape apiKey searchEngineId pages m fetch images =
        Except.error e) ↔ (jsTruthy apiKey && jsTruthy searchEngineId) = false) ∧
    ((∀ p ∈ pages, p = PageOutcome.failure) →
      (jsTruthy apiKey && jsTruthy searchEngineId) = true →
      searchGoogleAndScrape apiKey searchEngineId pages m fetch images =
        Except.ok { results := [], articles := [], images := images }) := by
  constructor
  · constructor
    · rintro ⟨e, he⟩
      by_contra hc
      rw [Bool.not_eq_false] at hc
      simp [searchGoogleAndScrape, hc] at he
    · intro hfalse
      refine ⟨"Google API credentials not configured", ?_⟩
      simp [searchGoogleAndScrape, hfalse]
  · intro hall hcred
    have hempty : allResults pages = [] := by
      rw [allResults, List.flatten_eq_nil_iff]
      intro l hl
      rw [List.mem_map] at hl
      obtain ⟨p, hp, hlp⟩ := hl
      rw [hall p hp] at hlp
      exact hlp.symm
    simp only [searchGoogleAndScrape, hcred, Bool.not_true, Bool.false_eq_true,
      if_false, hempty]
    rfl

/-- Concrete instantiation of the amended C3 theorem: a run with one
failed page succeeds with empty results, and a run with absent
credentials throws. -/
theorem searchGoogleAndScrape_throw_iff_witness :
    searchGoogleAndScrape (some "k") (some "cx") [PageOutcome.failure]
        noMatchers (fun _ => none) ["img"] =
      Except.ok { results := [], articles := [], images := ["img"] } ∧
    (∃ e, searchGoogleAndScrape none none [] noMatchers (fun _ => none) [] =
      Except.error e) := by
  constructor
  · exact (searchGoogleAndScrape_throw_iff (some "k") (some "cx")
      [PageOutcome.failure] noMatchers (fun _ => none) ["img"]).2
      (by decide) (by decide)
  · exact (searchGoogleAndScrape_throw_iff none none [] noMatchers
      (fun _ => none) []).1.mpr (by decide)

/-! ## Synthesis Engine required-field defaulting (`processArticlesWithGroq`) -/

/-- A parsed JSON value. -/
inductive JsonVal where
  | null
  | bool (b : Bool)
  | num (n : Int)
  | str (s : String)
  | arr (xs : List JsonVal)
  | obj (fields : List (String × JsonVal))
deriving Repr

/-- The five required fields, in the source's iteration order. -/
def requiredFields : List String :=
  ["location", "details", "accused", "victims", "timeline"]

/-- `Array.isArray` applied to a Boolean (the result of
`['accused','victims','timeline'].includes(field)`): a Boolean is never an
array, so this is false for either argument. -/
def jsArrayIsArrayOfBool (_b : Bool) : Bool := false

/-- The required-field defaulting loop of `processArticlesWithGroq`: for
every required field missing from the parsed object, append
`Array.isArray(['accused','victims','timeline'].includes(field)) ? [] : ''`. -/
def fillRequiredFields (parsedData : List (String × JsonVal)) :
    List (String × JsonVal) :=
  requiredFields.foldl
    (fun pd field =>
      if pd.any fun kv => kv.1 == field then pd
      else pd ++ [(field,
        if jsArrayIsArrayOfBool (["accused", "victims", "timeline"].contains field)
        then JsonVal.arr [] else JsonVal.str "")])
    parsedData

/-- C1 (code bug) — on a response whose repaired text parses to the empty
JSON object, the defaulting loop fills all five required keys, but every
one of them — including the array-typed `accused`, `victims` and
`timeline` — receives the empty STRING: `Array.isArray` applied to the
Boolean result of `includes` is always `false`, so the `[]` branch is
dead code and the documented empty-array default is never produced. -/
theorem fillRequiredFields_fills_strings :
    fillRequiredFields [] =
      [("location", JsonVal.str ""), ("details", JsonVal.str ""),
       ("accused", JsonVal.str ""), ("victims", JsonVal.str ""),
       ("timeline", JsonVal.str "")] := by
  rfl

/-! ## Persistence Gateway and Pipeline Controller -/

/-- A row of the `events` table (the columns the pipeline touches). -/
structure EventsRow where
  event_id : String
  query : String
  title : String
  last_updated : String
deriving Repr, DecidableEq

/-- A row of the `event_details` table. -/
structure EventDetailsRow where
  event_id : String
  location : String
  details : String
  accused : List String
  victims : List String
  timeline : List String
  sources : List String
  images : List String
  created_at : String
  updated_at : String
deriving Repr, DecidableEq

/-- The synthesized record persisted for one event. -/
structure EventDetails where
  location : String
  details : String
  accused : List String
  victims : List String
  timeline : List String
  sources : List String
  images : List String
deriving Repr, DecidableEq

/-- `Omit<EventDetails, 'images' | 'sources'>`: the Synthesis Engine's
output before sources/images are merged in. -/
structure AnalyzedDetails where
  location : String
  details : String
  accused : List String
  victims : List String
  timeline : List String
deriving Repr, DecidableEq

/-- The backing relational store (the two tables the pipeline touches).
Store-level write failures are the collaborator's concern and out of
scope; reads model PostgREST `.single()` as first-match lookup. -/
structure Db where
  events : List EventsRow
  event_details : List EventDetailsRow
deriving Repr, DecidableEq

/-- `fetchEventFromDatabase(event_id)`: throws when no row matches or the
row's `query` is falsy. -/
def fetchEventFromDatabase (db : Db) (event_id : String) :
    Except String EventsRow :=
  match db.events.find? fun r => r.event_id == event_id with
  | none => .error "Event not found"
  | some row =>
    if row.query = "" then .error "Event not found or missing query"
    else .ok row

/-- `saveEventDetails(event_id, structuredData)`: one timestamp is taken;
if an `event_details` row for the id exists, the seven content fields and
`updated_at` are updated on every matching row; otherwise a new row is
inserted with `created_at` and `updated_at` both set to that timestamp. -/
def saveEventDetails (db : Db) (event_id : String)
    (structuredData : EventDetails) (timestamp : String) : Db :=
  match db.event_details.find? fun r => r.event_id == event_id with
  | some _ =>
    { db with event_details := db.event_details.map fun r =>
        if r.event_id == event_id then
          { r with
            location := structuredData.location
            details := structuredData.details
            accused := structuredData.accused
            victims := structuredData.victims
            timeline := structuredData.timeline
            sources := structuredData.sources
            images := structuredData.images
            updated_at := timestamp }
        else r }
  | none =>
    { db with event_details := db.event_details ++
        [{ event_id := event_id
           location := structuredData.location
           details := structuredData.details
           accused := structuredData.accused
           victims := structuredData.victims
           timeline := structuredData.timeline
           sources := structuredData.sources
           images := structuredData.images
           created_at := timestamp
           updated_at := timestamp }] }

/-- `updateEventTimestamp(event_id)`: best-effort touch of the parent
event's `last_updated` (its own failure is only logged). -/
def updateEventTimestamp (db : Db) (event_id : String) (timestamp : String) : Db :=
  { db with events := db.events.map fun r =>
      if r.event_id == event_id then { r with last_updated := timestamp } else r }

/-- `processEvent(event_id)`: load the event's query, scrape, require at
least one article, synthesize (the Groq call is the abstract `groq`
environment), merge sources and images, persist, touch the timestamp.
The returned pair is the store state after the run and the thrown error
or returned `{eventData, structuredData, scrapedData}`. -/
def processEvent (db : Db) (event_id : String)
    (apiKey searchEngineId : Option String) (pages : List PageOutcome)
    (m : HtmlMatchers) (fetch : String → Option String) (images : List String)
    (groq : ScrapedData → String → Except String AnalyzedDetails)
    (timestamp : String) :
    Db × Except String (EventsRow × EventDetails × ScrapedData) :=
  match fetchEventFromDatabase db event_id with
  | .error e => (db, .error e)
  | .ok eventData =>
    match searchGoogleAndScrape apiKey searchEngineId pages m fetch images with
    | .error e => (db, .error e)
    | .ok scrapedData =>
      if scrapedData.articles.isEmpty then
        (db, .error "No articles found or scraped")
      else
        match groq scrapedData eventData.query with
        | .error e => (db, .error e)
        | .ok analyzedData =>
          let scrapedSourceUrls :=
            (scrapedData.articles.filter fun article =>
              article.url != "" && 100 < article.content.length).map
              fun article => article.url
          let structuredData : EventDetails :=
            { location := analyzedData.location
              details := analyzedData.details
              accused := analyzedData.accused
              victims := analyzedData.victims
              timeline := analyzedData.timeline
              sources := scrapedSourceUrls
              images := scrapedData.images }
          let db1 := saveEventDetails db event_id structuredData timestamp
          let db2 := updateEventTimestamp db1 event_id timestamp
          (db2, .ok (eventData, structuredData, scrapedData))

/-- C6 — `saveEventDetails` on an unseen `event_id` appends a row whose
`created_at` and `updated_at` are both the call's timestamp; on an
existing `event_id` it rewrites only the seven content fields and
`updated_at` of the matching rows, keeping `event_id` and `created_at`
(and every non-matching row) unchanged. -/
theorem saveEventDetails_insert_update (db : Db) (event_id : String)
    (d : EventDetails) (ts : String) :
    ((db.event_details.find? fun r => r.event_id == event_id) = none →
      (saveEventDetails db event_id d ts).event_details =
        db.event_details ++
          [{ event_id := event_id, location := d.location, details := d.details,
             accused := d.accused, victims := d.victims, timeline := d.timeline,
             sources := d.sources, images := d.images,
             created_at := ts, updated_at := ts }]) ∧
    (∀ r0, (db.event_details.find? fun r => r.event_id == event_id) = some r0 →
      ((saveEventDetails db event_id d ts).event_details =
        db.event_details.map fun r =>
          if r.event_id == event_id then
            { event_id := r.event_id, location := d.location, details := d.details,
              accused := d.accused, victims := d.victims, timeline := d.timeline,
              sources := d.sources, images := d.images,
              created_at := r.created_at, updated_at := ts }
          else r)) := by
  constructor
  · intro h
    unfold saveEventDetails
    rw [h]
  · intro r0 h
    unfold saveEventDetails
    rw [h]

/-- An existing details row used to instantiate C6. -/
def w6row : EventDetailsRow :=
  { event_id := "e1", location := "l0", details := "d0", accused := [],
    victims := [], timeline := [], sources := [], images := [],
    created_at := "t0", updated_at := "t0" }

/-- New synthesized content used to instantiate C6. -/
def w6d : EventDetails :=
  { location := "L", details := "D", accused := ["a"], victims := ["v"],
    timeline := ["tl"], sources := ["s"], images := ["i"] }

/-- Concrete instantiation of the C6 theorem: a fresh insert and a repeat
update. -/
theorem saveEventDetails_insert_update_witness :
    (saveEventDetails { events := [], event_details := [] } "e1" w6d "t1").event_details =
      [{ event_id := "e1", location := "L", details := "D", accused := ["a"],
         victims := ["v"], timeline := ["tl"], sources := ["s"], images := ["i"],
         created_at := "t1", updated_at := "t1" }] ∧
    (saveEventDetails { events := [], event_details := [w6row] } "e1" w6d "t1").event_details =
      [{ event_id := "e1", location := "L", details := "D", accused := ["a"],
         victims := ["v"], timeline := ["tl"], sources := ["s"], images := ["i"],
         created_at := "t0", updated_at := "t1" }] := by
  constructor
  · have h := (saveEventDetails_insert_update
      { events := [], event_details := [] } "e1" w6d "t1").1 rfl
    rw [h]
    rfl
  · have h := (saveEventDetails_insert_update
      { events := [], event_details := [w6row] } "e1" w6d "t1").2 w6row rfl
    rw [h]
    rfl

/-- C7 — when the scrape stage returns zero usable articles, `processEvent`
throws before invoking the Synthesis Engine (the result does not depend
on `groq`), and the store is left exactly as it was: no `event_details`
write and no timestamp touch. -/
theorem processEvent_zero_articles_aborts (db : Db) (event_id : String)
    (apiKey searchEngineId : Option String) (pages : List PageOutcome)
    (m : HtmlMatchers) (fetch : String → Option String) (images : List String)
    (groq : ScrapedData → String → Except String AnalyzedDetails)
    (ts : String) (row : EventsRow) (sd : ScrapedData)
    (hev : fetchEventFromDatabase db event_id = .ok row)
    (hs : searchGoogleAndScrape apiKey searchEngineId pages m fetch images = .ok sd)
    (hempty : sd.articles = []) :
    processEvent db event_id apiKey searchEngineId pages m fetch images groq ts =
      (db, .error "No articles found or scraped") := by
  simp [processEvent, hev, hs, hempty]

/-- A one-event store used to instantiate C7 and C9. -/
def w7db : Db :=
  { events := [{ event_id := "e1", query := "q", title := "T", last_updated := "" }],
    event_details := [] }

/-- Concrete instantiation of the C7 theorem: all pages fail, so zero
articles are scraped and the run aborts with the store untouched. -/
theorem processEvent_zero_articles_aborts_witness :
    processEvent w7db "e1" (some "k") (some "cx") [PageOutcome.failure]
      noMatchers (fun _ => none) [] (fun _ _ => Except.error "g") "t1" =
      (w7db, Except.error "No articles found or scraped") := by
  exact processEvent_zero_articles_aborts w7db "e1" (some "k") (some "cx")
    [PageOutcome.failure] noMatchers (fun _ => none) []
    (fun _ _ => Except.error "g") "t1"
    { event_id := "e1", query := "q", title := "T", last_updated := "" }
    { results := [], articles := [], images := [] } rfl rfl rfl

/-- A parsed hostname implies the URL was non-empty. -/
theorem parseHostname_some_ne_empty {url h : String}
    (hp : parseHostname url = some h) : url ≠ "" := by
  intro he
  subst he
  have h0 : parseHostname "" = none := rfl
  rw [h0] at hp
  exact Option.noConfusion hp

/-- A successful extraction records the fetched URL, which is non-empty. -/
theorem extractArticleContent_some_url {m : HtmlMatchers} {html url : String}
    {a : ScrapedArticle} (h : extractArticleContent m html url = some a) :
    a.url = url ∧ url ≠ "" := by
  simp only [extractArticleContent] at h
  cases hu : parseHostname url with
  | none => rw [hu] at h; simp at h
  | some host =>
    rw [hu] at h
    simp only [Option.some.injEq] at h
    exact ⟨by rw [← h], parseHostname_some_ne_empty hu⟩

/-- A successful scrape records the fetched URL, which is non-empty. -/
theorem scrapeArticle_some_url {m : HtmlMatchers} {fetch : String → Option String}
    {url : String} {a : ScrapedArticle}
    (h : scrapeArticle m fetch url = some a) : a.url = url ∧ url ≠ "" := by
  unfold scrapeArticle at h
  cases hf : fetch url with
  | none => rw [hf] at h; exact Option.noConfusion h
  | some html =>
    rw [hf] at h
    have h' : (if html = "" ∨ html.length < 100 then none
        else extractArticleContent m html url) = some a := h
    by_cases hc : html = "" ∨ html.length < 100
    · rw [if_pos hc] at h'
      exact Option.noConfusion h'
    · rw [if_neg hc] at h'
      exact extractArticleContent_some_url h'

/-- Every article in a successful scrape bundle has a non-empty URL and
content longer than 100 characters. -/
theorem searchGoogleAndScrape_articles_inv
    {apiKey searchEngineId : Option String} {pages : List PageOutcome}
    {m : HtmlMatchers} {fetch : String → Option String} {images : List String}
    {sd : ScrapedData}
    (h : searchGoogleAndScrape apiKey searchEngineId pages m fetch images =
      .ok sd) :
    ∀ a ∈ sd.articles, a.url ≠ "" ∧ 100 < a.content.length := by
  unfold searchGoogleAndScrape at h
  by_cases hc : (!(jsTruthy apiKey && jsTruthy searchEngineId)) = true
  · rw [if_pos hc] at h
    exact Except.noConfusion h
  · rw [if_neg hc] at h
    simp only [Except.ok.injEq] at h
    intro a ha
    rw [← h] at ha
    simp only [List.mem_filter, List.mem_filterMap] at ha
    obtain ⟨⟨result, _, hsc⟩, hlen⟩ := ha
    refine ⟨?_, by simpa using hlen⟩
    obtain ⟨hurl, hne⟩ := scrapeArticle_some_url hsc
    rw [hurl]
    exact hne

/-- After a save, the first `event_details` row matching the id carries
exactly the saved `sources`. -/
theorem saveEventDetails_find (db : Db) (event_id : String)
    (d : EventDetails) (ts : String) :
    ∃ r, ((saveEventDetails db event_id d ts).event_details.find?
      fun x => x.event_id == event_id) = some r ∧ r.sources = d.sources := by
  unfold saveEventDetails
  cases hf : db.event_details.find? (fun r => r.event_id == event_id) with
  | none =>
    refine ⟨{ event_id := event_id, location := d.location, details := d.details,
              accused := d.accused, victims := d.victims, timeline := d.timeline,
              sources := d.sources, images := d.images,
              created_at := ts, updated_at := ts }, ?_, rfl⟩
    show (db.event_details ++ [_]).find? _ = _
    rw [List.find?_append, hf]
    simp
  | some r0 =>
    have hpred : ((fun x : EventDetailsRow => x.event_id == event_id) ∘
        (fun r : EventDetailsRow =>
          if r.event_id == event_id then
            { r with
              location := d.location
              details := d.details
              accused := d.accused
              victims := d.victims
              timeline := d.timeline
              sources := d.sources
              images := d.images
              updated_at := ts }
          else r)) = fun r : EventDetailsRow => r.event_id == event_id := by
      funext r
      by_cases hr : r.event_id = event_id
      · simp [hr]
      · simp [hr]
    have hp0 : (r0.event_id == event_id) = true := by
      simpa using List.find?_some hf
    refine ⟨{ event_id := r0.event_id, location := d.location, details := d.details,
              accused := d.accused, victims := d.victims, timeline := d.timeline,
              sources := d.sources, images := d.images,
              created_at := r0.created_at, updated_at := ts }, ?_, rfl⟩
    show ((db.event_details.map _).find? _) = _
    rw [List.find?_map, hpred, hf]
    simp only [Option.map_some']
    rw [if_pos hp0]

/-- C9 — on a successful run, the synthesized record's `sources` (both in
the returned value and in the persisted `event_details` row) is exactly
the list of URLs of the successfully scraped articles, in order: the
extra URL/content-length filter in `processEvent` removes nothing because
every scraped article already has a non-empty URL and content longer than
100 characters. -/
theorem processEvent_sources_eq (db : Db) (event_id : String)
    (apiKey searchEngineId : Option String) (pages : List PageOutcome)
    (m : HtmlMatchers) (fetch : String → Option String) (images : List String)
    (groq : ScrapedData → String → Except String AnalyzedDetails) (ts : String)
    (row : EventsRow) (sd : ScrapedData) (an : AnalyzedDetails)
    (hev : fetchEventFromDatabase db event_id = .ok row)
    (hs : searchGoogleAndScrape apiKey searchEngineId pages m fetch images =
      .ok sd)
    (hne : sd.articles ≠ [])
    (hg : groq sd row.query = .ok an) :
    (∃ out, (processEvent db event_id apiKey searchEngineId pages m fetch
        images groq ts).2 = .ok out ∧
      out.2.1.sources = sd.articles.map fun a => a.url) ∧
    (∃ r, ((processEvent db event_id apiKey searchEngineId pages m fetch
        images groq ts).1).event_details.find?
        (fun x => x.event_id == event_id) = some r ∧
      r.sources = sd.articles.map fun a => a.url) := by
  have hinv := searchGoogleAndScrape_articles_inv hs
  have hfeq : (sd.articles.filter fun article =>
      article.url != "" && 100 < article.content.length) = sd.articles := by
    rw [List.filter_eq_self]
    intro a ha
    obtain ⟨h1, h2⟩ := hinv a ha
    simp [h1, h2]
  have hie : sd.articles.isEmpty = false := by
    cases harts : sd.articles with
    | nil => exact absurd harts hne
    | cons x xs => rfl
  have hred : processEvent db event_id apiKey searchEngineId pages m fetch
      images groq ts =
      (updateEventTimestamp (saveEventDetails db event_id
        { location := an.location, details := an.details,
          accused := an.accused, victims := an.victims,
          timeline := an.timeline,
          sources := sd.articles.map fun a => a.url,
          images := sd.images } ts) event_id ts,
       .ok (row,
        { location := an.location, details := an.details,
          accused := an.accused, victims := an.victims,
          timeline := an.timeline,
          sources := sd.articles.map fun a => a.url,
          images := sd.images }, sd)) := by
    simp [processEvent, hev, hs, hie, hg, hfeq]
  constructor
  · refine ⟨_, by rw [hred], rfl⟩
  · rw [hred]
    exact saveEventDetails_find db event_id _ ts

/-- A 120-character paragraph body used to instantiate C9. -/
def w9para : String := ⟨List.replicate 120 'b'⟩

/-- A 120-character fetched body used to instantiate C9. -/
def w9html : String := ⟨List.replicate 120 'a'⟩

/-- Matchers whose paragraph tier yields one long paragraph. -/
def w9m : HtmlMatchers :=
  { articleMatches := fun _ => none
    paragraphMatches := fun _ => some [w9para]
    divMatches := fun _ => none
    metaDescription := fun _ => none }

/-- One raw search hit used to instantiate C9. -/
def w9item : RawItem :=
  { title := some "t", link := some "https://s.example/art", snippet := some "s",
    displayLink := some "s.example" }

/-- One successful page used to instantiate C9. -/
def w9pages : List PageOutcome := [PageOutcome.success [w9item]]

/-- The scrape bundle the C9 witness run produces. -/
def w9sd : ScrapedData :=
  { results := [{ title := "t", link := "https://s.example/art", snippet := "s",
                  displayLink := "s.example" }]
    articles := [{ url := "https://s.example/art", title := "", content := w9para,
                   publishDate := "", author := "", source := "s.example" }]
    images := ["i1"] }

/-- The synthesized five fields the C9 witness run produces. -/
def w9an : AnalyzedDetails :=
  { location := "loc", details := "det", accused := [], victims := [], timeline := [] }

/-- A synthesis stub returning `w9an`. -/
def w9groq : ScrapedData → String → Except String AnalyzedDetails :=
  fun _ _ => Except.ok w9an

/-- Concrete instantiation of the C9 theorem: a full successful run whose
persisted row lists exactly the one scraped URL. -/
theorem processEvent_sources_eq_witness :
    ∃ r, ((processEvent w7db "e1" (some "k") (some "cx") w9pages w9m
        (fun _ => some w9html) ["i1"] w9groq "t1").1).event_details.find?
        (fun x => x.event_id == "e1") = some r ∧
      r.sources = ["https://s.example/art"] := by
  obtain ⟨r, hr, hsrc⟩ := (processEvent_sources_eq w7db "e1" (some "k")
    (some "cx") w9pages w9m (fun _ => some w9html) ["i1"] w9groq "t1"
    { event_id := "e1", query := "q", title := "T", last_updated := "" }
    w9sd w9an rfl rfl (by decide) rfl).2
  exact ⟨r, hr, by rw [hsrc]; rfl⟩

end Deadline
